import Mathlib

/-!
Shallow embedding of the rt-LTC681X driver core: the PEC15 checksum engine,
the command framer, the transfer engine (`read_cell_voltages`,
`start_conv_cells`, `adc_ready`) of `src/monitor.rs`, the precomputed opcode
table of `src/commands.rs`, and the LTC6810 configuration encoder of
`src/ltc6810/config.rs`.

Bytes and 16-bit words are modelled as `Nat` with explicit masking where the
source relies on fixed-width semantics.  The SPI bus and the chip-select pin
(caller-supplied collaborators in the source) are modelled as an explicit
environment state `St` carrying the pin level, a schedule of injected
pin-operation and bus-transfer outcomes, and a trace of transmitted buffers.
-/

deriving instance DecidableEq for Except

namespace LTC681X

/-- Modelled from the spec: the PEC15 checksum engine lives in `src/pec15.rs`,
which is not part of the provided sources.  Per the spec (§4.1), a 256-entry
table is derived from the fixed 15-bit generator polynomial of the chip
family (0x4599): one step of the table generation shifts the remainder left
by one bit and folds in the polynomial when bit 14 was set. -/
def pec15TableStep (r : Nat) : Nat :=
  if r &&& 0x4000 ≠ 0 then ((r <<< 1) ^^^ 0x4599) &&& 0xFFFF
  else (r <<< 1) &&& 0xFFFF

/-- Modelled from the spec: iterate the table-generation step. -/
def pec15TableIter : Nat → Nat → Nat
  | 0, r => r
  | n + 1, r => pec15TableIter n (pec15TableStep r)

/-- Modelled from the spec: entry `i` of the 256-entry lookup table, obtained
by running eight generator steps on the index placed in the top bits of the
15-bit remainder. -/
def pec15TableEntry (i : Nat) : Nat :=
  pec15TableIter 8 (i <<< 7)

/-- Modelled from the spec: one accumulator update per input byte — combine
the accumulator's high byte with the input byte to index the table, and
recombine to update the 16-bit accumulator. -/
def pec15Update (rem b : Nat) : Nat :=
  ((rem <<< 8) ^^^ pec15TableEntry (((rem >>> 7) ^^^ b) &&& 0xFF)) &&& 0xFFFF

/-- Modelled from the spec: `PEC15::calc` of the missing `src/pec15.rs`.
Seed the accumulator with the fixed constant 16, consume all bytes, apply the
final 1-bit left shift and split the result into `[hi, lo]`. -/
def PEC15.calc (data : List Nat) : List Nat :=
  let rem := data.foldl pec15Update 16
  let pec := (rem <<< 1) &&& 0xFFFF
  [pec >>> 8, pec &&& 0xFF]

/-! ### Environment: chip-select pin and SPI bus collaborators

`csHigh = true` means the chip-select line is high (deasserted / released);
`csHigh = false` means it is low (asserted).  `pinOps` and `busOps` are
schedules of injected outcomes: each pin operation and each bus transfer
consumes the head of its schedule, an empty schedule meaning success (a bus
transfer succeeding by default echoes the transmitted buffer).  `sent`
records every buffer handed to `bus.transfer`, in order. -/

structure St where
  csHigh : Bool
  pinOps : List (Except Unit Unit)
  busOps : List (Except Unit (List Nat))
  sent : List (List Nat)
deriving Repr, DecidableEq

/-- Consume the next scheduled pin-operation outcome. -/
def takePin (s : St) : Except Unit Unit × St :=
  match s.pinOps with
  | [] => (Except.ok (), s)
  | r :: rest => (r, { s with pinOps := rest })

/-- `cs.set_low()` / `cs.set_high()`: on success the line changes to `level`;
on failure the line is unchanged. -/
def setCs (level : Bool) (s : St) : Except Unit Unit × St :=
  match takePin s with
  | (Except.ok _, s1) => (Except.ok (), { s1 with csHigh := level })
  | (Except.error e, s1) => (Except.error e, s1)

/-- `bus.transfer(&mut data)`: full-duplex blocking transfer.  The
transmitted buffer is recorded in the trace; the outcome (received bytes in
place, or a bus error) is the next scheduled one. -/
def busTransfer (data : List Nat) (s : St) : Except Unit (List Nat) × St :=
  let s1 : St := { s with sent := s.sent ++ [data] }
  match s1.busOps with
  | [] => (Except.ok data, s1)
  | r :: rest => (r, { s1 with busOps := rest })

/-- Error enum of LTC681X (`monitor.rs`); the collaborator-specific causes
`B::Error` and `CS::Error` are modelled as `Unit`. -/
inductive Error where
  | TransferError : Unit → Error
  | CSPinError : Unit → Error
  | ChecksumMismatch : Error
deriving Repr, DecidableEq

/-- Poll strategy (`monitor.rs`): `NoPolling` releases chip-select right
after the command, `SDOLinePolling` leaves it asserted. -/
inductive PollMethod where
  | SDOLinePolling : PollMethod
  | NoPolling : PollMethod
deriving Repr, DecidableEq

/-- `PollMethod::end_command`: handles the CS pin state after a command has
been sent. -/
def PollMethod.end_command : PollMethod → St → Except Unit Unit × St
  | PollMethod.SDOLinePolling, s => (Except.ok (), s)
  | PollMethod.NoPolling, s => setCs true s

/-- ADC frequency and filtering settings (`monitor.rs`), with their
discriminant values. -/
inductive ADCMode where
  | Fast : ADCMode
  | Normal : ADCMode
  | Filtered : ADCMode
  | Other : ADCMode
deriving Repr, DecidableEq

def ADCMode.code : ADCMode → Nat
  | ADCMode.Fast => 0x1
  | ADCMode.Normal => 0x2
  | ADCMode.Filtered => 0x3
  | ADCMode.Other => 0x0

/-- Cell selection for ADC conversion (`monitor.rs`), with discriminants. -/
inductive CellSelection where
  | All : CellSelection
  | Group1 : CellSelection
  | Group2 : CellSelection
  | Group3 : CellSelection
  | Group4 : CellSelection
  | Group5 : CellSelection
  | Group6 : CellSelection
deriving Repr, DecidableEq

def CellSelection.code : CellSelection → Nat
  | CellSelection.All => 0x0
  | CellSelection.Group1 => 0x1
  | CellSelection.Group2 => 0x2
  | CellSelection.Group3 => 0x3
  | CellSelection.Group4 => 0x4
  | CellSelection.Group5 => 0x5
  | CellSelection.Group6 => 0x6

/-- Cell voltage registers (`monitor.rs`), with discriminants. -/
inductive CellVoltageRegister where
  | RegisterA : CellVoltageRegister
  | RegisterB : CellVoltageRegister
  | RegisterC : CellVoltageRegister
  | RegisterD : CellVoltageRegister
  | RegisterE : CellVoltageRegister
  | RegisterF : CellVoltageRegister
deriving Repr, DecidableEq

def CellVoltageRegister.code : CellVoltageRegister → Nat
  | CellVoltageRegister.RegisterA => 0x4
  | CellVoltageRegister.RegisterB => 0x6
  | CellVoltageRegister.RegisterC => 0x8
  | CellVoltageRegister.RegisterD => 0xA
  | CellVoltageRegister.RegisterE => 0x9
  | CellVoltageRegister.RegisterF => 0xB

/-- `LTC681X::send_command`: builds the 4-byte frame — opcode big-endian,
then the PEC15 of the two opcode bytes — and transfers it on the bus. -/
def send_command (command : Nat) (s : St) : Except Unit Unit × St :=
  let b0 := (command >>> 8) &&& 0xFF
  let b1 := command &&& 0xFF
  let pec := PEC15.calc [b0, b1]
  match busTransfer [b0, b1, pec.getD 0 0, pec.getD 1 0] s with
  | (Except.ok _, s1) => (Except.ok (), s1)
  | (Except.error e, s1) => (Except.error e, s1)

/-- `LTC681X::read`: one 8-byte transfer (transmitting all-ones), PEC check
of the trailing 2 bytes against the leading 6, then little-endian decoding
of the three 16-bit registers. -/
def read (s : St) : Except Error (Nat × Nat × Nat) × St :=
  match busTransfer (List.replicate 8 0xFF) s with
  | (Except.error e, s1) => (Except.error (Error.TransferError e), s1)
  | (Except.ok result, s1) =>
    let pec := PEC15.calc (result.take 6)
    if pec.getD 0 0 ≠ result.getD 6 0 ∨ pec.getD 1 0 ≠ result.getD 7 0 then
      (Except.error Error.ChecksumMismatch, s1)
    else
      (Except.ok
        (result.getD 0 0 ||| (result.getD 1 0 <<< 8),
         result.getD 2 0 ||| (result.getD 3 0 <<< 8),
         result.getD 4 0 ||| (result.getD 5 0 <<< 8)), s1)

/-- The `for i in 0..L` loop body of `read_cell_voltages`: `L` consecutive
per-device reads, aborting on the first failing one. -/
def readLoop : Nat → St → Except Error (List (Nat × Nat × Nat)) × St
  | 0, s => (Except.ok [], s)
  | n + 1, s =>
    match read s with
    | (Except.error e, s1) => (Except.error e, s1)
    | (Except.ok r, s1) =>
      match readLoop n s1 with
      | (Except.error e, s2) => (Except.error e, s2)
      | (Except.ok rs, s2) => (Except.ok (r :: rs), s2)

/-- `LTC681X::read_cell_voltages` for a chain of `L` devices: assert CS,
send the register's read command, read `L` per-device frames, deassert CS,
return the decoded triples. -/
def read_cell_voltages (L : Nat) (register : CellVoltageRegister) (s : St) :
    Except Error (List (Nat × Nat × Nat)) × St :=
  match setCs false s with
  | (Except.error e, s1) => (Except.error (Error.CSPinError e), s1)
  | (Except.ok _, s1) =>
    match send_command register.code s1 with
    | (Except.error e, s2) => (Except.error (Error.TransferError e), s2)
    | (Except.ok _, s2) =>
      match readLoop L s2 with
      | (Except.error e, s3) => (Except.error e, s3)
      | (Except.ok result, s3) =>
        match setCs true s3 with
        | (Except.error e, s4) => (Except.error (Error.CSPinError e), s4)
        | (Except.ok _, s4) => (Except.ok result, s4)

/-- The 16-bit conversion command word composed by `start_conv_cells`. -/
def conversionCommand (mode : ADCMode) (cells : CellSelection) (dcp : Bool) : Nat :=
  let command : Nat := 0b0000001001100000
  let command := command ||| (mode.code <<< 7)
  let command := command ||| cells.code
  if dcp then command ||| 0b00010000 else command

/-- `LTC681X::start_conv_cells`: assert CS, send the composed conversion
command, conclude via the active poll strategy. -/
def start_conv_cells (p : PollMethod) (mode : ADCMode) (cells : CellSelection)
    (dcp : Bool) (s : St) : Except Error Unit × St :=
  match setCs false s with
  | (Except.error e, s1) => (Except.error (Error.CSPinError e), s1)
  | (Except.ok _, s1) =>
    match send_command (conversionCommand mode cells dcp) s1 with
    | (Except.error e, s2) => (Except.error (Error.TransferError e), s2)
    | (Except.ok _, s2) =>
      match PollMethod.end_command p s2 with
      | (Except.error e, s3) => (Except.error (Error.CSPinError e), s3)
      | (Except.ok _, s3) => (Except.ok (), s3)

/-- `LTC681X::adc_ready` (only available under `SDOLinePolling`): transfer a
single all-ones byte; on an all-ones answer pull CS high and report `true`,
otherwise report `false` leaving CS untouched. -/
def adc_ready (s : St) : Except Error Bool × St :=
  match busTransfer [0xFF] s with
  | (Except.error e, s1) => (Except.error (Error.TransferError e), s1)
  | (Except.ok result, s1) =>
    if result.getD 0 0 = 0xFF then
      match setCs true s1 with
      | (Except.error e, s2) => (Except.error (Error.CSPinError e), s2)
      | (Except.ok _, s2) => (Except.ok true, s2)
    else
      (Except.ok false, s1)

/-- A per-device response frame is accepted when its trailing 2 bytes equal
the PEC15 of its leading 6 bytes (the negation of the rejection test in
`LTC681X::read`). -/
def pecValid (r : List Nat) : Prop :=
  (PEC15.calc (r.take 6)).getD 0 0 = r.getD 6 0 ∧
  (PEC15.calc (r.take 6)).getD 1 0 = r.getD 7 0

instance (r : List Nat) : Decidable (pecValid r) := by
  unfold pecValid
  infer_instance

/-- The three little-endian 16-bit values `LTC681X::read` decodes from the
payload bytes of one accepted 8-byte response. -/
def decodeTriple (r : List Nat) : Nat × Nat × Nat :=
  (r.getD 0 0 ||| (r.getD 1 0 <<< 8),
   r.getD 2 0 ||| (r.getD 3 0 <<< 8),
   r.getD 4 0 ||| (r.getD 5 0 <<< 8))

/-- The 4-byte frame `send_command` puts on the bus for a given command
word, read off the transfer trace of a fresh environment. -/
def frameOf (op : Nat) : List Nat :=
  ((send_command op ⟨true, [], [], []⟩).2).sent.getD 0 []

/-- The 16-bit opcode stored in the leading two (big-endian) bytes of a
precomputed command constant. -/
def cmdOpcode (cmd : List Nat) : Nat :=
  (cmd.getD 0 0 <<< 8) ||| cmd.getD 1 0

/-! ### Precomputed command constants (`src/commands.rs`) -/

def CMD_R_CELL_V_REG_A : List Nat := [0x00, 0x04, 0x07, 0xC2]

def CMD_R_CELL_V_REG_B : List Nat := [0x00, 0x06, 0x9A, 0x94]

def CMD_R_CELL_V_REG_C : List Nat := [0x00, 0x08, 0x5E, 0x52]

def CMD_R_CELL_V_REG_D : List Nat := [0x00, 0x0A, 0xC3, 0x04]

def CMD_R_CELL_V_REG_E : List Nat := [0x00, 0x09, 0xD5, 0x60]

def CMD_R_CELL_V_REG_F : List Nat := [0x00, 0x0B, 0x48, 0x36]

def CMD_R_AUX_V_REG_A : List Nat := [0x00, 0xC, 0xEF, 0xCC]

def CMD_R_AUX_V_REG_B : List Nat := [0x00, 0xE, 0x72, 0x9A]

def CMD_R_AUX_V_REG_C : List Nat := [0x00, 0xD, 0x64, 0xFE]

def CMD_R_AUX_V_REG_D : List Nat := [0x00, 0xF, 0xF9, 0xA8]

def CMD_R_STATUS_A : List Nat := [0x00, 0x10, 0xED, 0x72]

def CMD_R_STATUS_B : List Nat := [0x00, 0x12, 0x70, 0x24]

def CMD_R_CONF_A : List Nat := [0x00, 0x2, 0x2B, 0xA]

def CMD_R_CONF_B : List Nat := [0x00, 0x26, 0x2C, 0xC8]

def CMD_W_CONF_A : List Nat := [0x00, 0x1, 0x3D, 0x6E]

def CMD_W_CONF_B : List Nat := [0x00, 0x24, 0xB1, 0x9E]

def CMD_W_PWM : List Nat := [0x00, 0x20, 0x00, 0x00]

def CMD_R_PWM : List Nat := [0x00, 0x22, 0x9D, 0x56]

/-! ### LTC6810 configuration encoder (`src/ltc6810/config.rs`)

The `GPIO` and `Cell` selector enums live in `crate::config`, which is not
part of the provided sources; they are modelled from the spec below.  The
`unimplemented!` fault branches of the source are modelled as `none`. -/

/-- Modelled from the spec: the GPIO selector enum of the missing
`src/config.rs`, covering the full chip family (the largest family member
exposes nine GPIO pins); the LTC6810 encoder supports only the first
three. -/
inductive GPIO where
  | GPIO1 : GPIO
  | GPIO2 : GPIO
  | GPIO3 : GPIO
  | GPIO4 : GPIO
  | GPIO5 : GPIO
  | GPIO6 : GPIO
  | GPIO7 : GPIO
  | GPIO8 : GPIO
  | GPIO9 : GPIO
deriving Repr, DecidableEq

/-- Modelled from the spec: the cell selector enum of the missing
`src/config.rs`, covering the full chip family (the largest family member
monitors eighteen cells); the LTC6810 encoder supports only the first
six. -/
inductive Cell where
  | Cell1 : Cell
  | Cell2 : Cell
  | Cell3 : Cell
  | Cell4 : Cell
  | Cell5 : Cell
  | Cell6 : Cell
  | Cell7 : Cell
  | Cell8 : Cell
  | Cell9 : Cell
  | Cell10 : Cell
  | Cell11 : Cell
  | Cell12 : Cell
  | Cell13 : Cell
  | Cell14 : Cell
  | Cell15 : Cell
  | Cell16 : Cell
  | Cell17 : Cell
  | Cell18 : Cell
deriving Repr, DecidableEq

/-- Error type returned by the comparison-voltage setters (declared in the
missing `src/config.rs` as an empty struct). -/
structure VoltageOutOfRangeError where
deriving Repr, DecidableEq

/-- Abstracted configuration of configuration register(s)
(`src/ltc6810/config.rs`): six bytes of register group A. -/
structure Configuration where
  register_a : List Nat
deriving Repr, DecidableEq

/-- `Configuration::default`. -/
def Configuration.default : Configuration :=
  ⟨[0b11111000, 0b00000000, 0b00000000, 0b00000000, 0b00000000, 0b00000000]⟩

/-- `Configuration::enable_gpio_pull_down`: `none` models the
`unimplemented!("unsupported GPIO")` fault branch. -/
def enable_gpio_pull_down (c : Configuration) (pin : GPIO) : Option Configuration :=
  match pin with
  | GPIO.GPIO1 => some ⟨c.register_a.set 0 ((c.register_a.getD 0 0) &&& 0b11110111)⟩
  | GPIO.GPIO2 => some ⟨c.register_a.set 0 ((c.register_a.getD 0 0) &&& 0b11101111)⟩
  | GPIO.GPIO3 => some ⟨c.register_a.set 0 ((c.register_a.getD 0 0) &&& 0b11011111)⟩
  | _ => none

/-- `Configuration::disable_gpio_pull_down`: `none` models the
`unimplemented!("unsupported GPIO")` fault branch. -/
def disable_gpio_pull_down (c : Configuration) (pin : GPIO) : Option Configuration :=
  match pin with
  | GPIO.GPIO1 => some ⟨c.register_a.set 0 ((c.register_a.getD 0 0) ||| 0b00001000)⟩
  | GPIO.GPIO2 => some ⟨c.register_a.set 0 ((c.register_a.getD 0 0) ||| 0b00010000)⟩
  | GPIO.GPIO3 => some ⟨c.register_a.set 0 ((c.register_a.getD 0 0) ||| 0b00100000)⟩
  | _ => none

/-- `Configuration::discharge_cell`: `none` models the
`unimplemented!("Unsupported cell")` fault branch. -/
def discharge_cell (c : Configuration) (cell : Cell) : Option Configuration :=
  match cell with
  | Cell.Cell1 => some ⟨c.register_a.set 4 ((c.register_a.getD 4 0) ||| 0b00000001)⟩
  | Cell.Cell2 => some ⟨c.register_a.set 4 ((c.register_a.getD 4 0) ||| 0b00000010)⟩
  | Cell.Cell3 => some ⟨c.register_a.set 4 ((c.register_a.getD 4 0) ||| 0b00000100)⟩
  | Cell.Cell4 => some ⟨c.register_a.set 4 ((c.register_a.getD 4 0) ||| 0b00001000)⟩
  | Cell.Cell5 => some ⟨c.register_a.set 4 ((c.register_a.getD 4 0) ||| 0b00010000)⟩
  | Cell.Cell6 => some ⟨c.register_a.set 4 ((c.register_a.getD 4 0) ||| 0b00100000)⟩
  | _ => none

/-- `Configuration::set_uv_comp_voltage` in state-passing form: the first
component is the `Result`, the second the configuration after the call
(`&mut self` in the source).  `value` is masked to 16 bits (`as u16`) and
its register bytes to 8 bits (`as u8`), mirroring the source's casts. -/
def set_uv_comp_voltage (c : Configuration) (voltage : Nat) :
    Except VoltageOutOfRangeError Unit × Configuration :=
  if voltage = 0 then
    let r := c.register_a.set 1 0x0
    let r := r.set 2 ((r.getD 2 0) &&& 0b11110000)
    (Except.ok (), ⟨r⟩)
  else if ¬ (3200 ≤ voltage ∧ voltage ≤ 6553600) then
    (Except.error {}, c)
  else
    let value := (voltage / 1600 - 1) &&& 0xFFFF
    let r := c.register_a.set 1 (value &&& 0xFF)
    let r := r.set 2 ((r.getD 2 0) &&& 0b11110000)
    let r := r.set 2 ((r.getD 2 0) ||| ((value >>> 8) &&& 0xFF))
    (Except.ok (), ⟨r⟩)

/-- `Configuration::set_ov_comp_voltage` in state-passing form, with the
source's casts modelled as masks. -/
def set_ov_comp_voltage (c : Configuration) (voltage : Nat) :
    Except VoltageOutOfRangeError Unit × Configuration :=
  if voltage = 0 then
    let r := c.register_a.set 2 ((c.register_a.getD 2 0) &&& 0b00001111)
    let r := r.set 3 0x0
    (Except.ok (), ⟨r⟩)
  else if ¬ (1600 ≤ voltage ∧ voltage ≤ 6552000) then
    (Except.error {}, c)
  else
    let value := (voltage / 1600) &&& 0xFFFF
    let r := c.register_a.set 3 ((value >>> 4) &&& 0xFF)
    let r := r.set 2 ((r.getD 2 0) &&& 0b00001111)
    let r := r.set 2 ((r.getD 2 0) ||| ((value <<< 4) &&& 0xFF))
    (Except.ok (), ⟨r⟩)

/-! ### Environment-preservation lemmas -/

theorem busTransfer_csHigh (d : List Nat) (s : St) :
    ((busTransfer d s).2).csHigh = s.csHigh := by
  cases s with
  | mk cs pin bus sent => cases bus with
    | nil => rfl
    | cons r rest => rfl

theorem busTransfer_pinOps (d : List Nat) (s : St) :
    ((busTransfer d s).2).pinOps = s.pinOps := by
  cases s with
  | mk cs pin bus sent => cases bus with
    | nil => rfl
    | cons r rest => rfl

theorem send_command_csHigh (c : Nat) (s : St) :
    ((send_command c s).2).csHigh = s.csHigh := by
  cases s with
  | mk cs pin bus sent => cases bus with
    | nil => rfl
    | cons r rest => cases r with
      | ok v => rfl
      | error e => rfl

theorem send_command_pinOps (c : Nat) (s : St) :
    ((send_command c s).2).pinOps = s.pinOps := by
  cases s with
  | mk cs pin bus sent => cases bus with
    | nil => rfl
    | cons r rest => cases r with
      | ok v => rfl
      | error e => rfl

theorem read_pres (s : St) :
    ((read s).2).csHigh = s.csHigh ∧ ((read s).2).pinOps = s.pinOps := by
  cases s with
  | mk cs pin bus sent => cases bus with
    | nil =>
      constructor
      · simp only [read, busTransfer]
        split
        · rfl
        · rfl
      · simp only [read, busTransfer]
        split
        · rfl
        · rfl
    | cons r rest => cases r with
      | ok v =>
        constructor
        · simp only [read, busTransfer]
          split
          · rfl
          · rfl
        · simp only [read, busTransfer]
          split
          · rfl
          · rfl
      | error e => exact ⟨rfl, rfl⟩

theorem readLoop_succ_error (m : Nat) (s s1 : St) (e : Error)
    (h : read s = (Except.error e, s1)) :
    readLoop (m + 1) s = (Except.error e, s1) := by
  simp [readLoop, h]

theorem readLoop_succ_ok (m : Nat) (s s1 : St) (r : Nat × Nat × Nat)
    (h : read s = (Except.ok r, s1)) :
    readLoop (m + 1) s =
      match readLoop m s1 with
      | (Except.error e, s2) => (Except.error e, s2)
      | (Except.ok rs, s2) => (Except.ok (r :: rs), s2) := by
  simp [readLoop, h]

theorem readLoop_pres (n : Nat) (s : St) :
    ((readLoop n s).2).csHigh = s.csHigh ∧ ((readLoop n s).2).pinOps = s.pinOps := by
  induction n generalizing s with
  | zero => exact ⟨rfl, rfl⟩
  | succ m ih =>
    have hread := read_pres s
    cases hr : read s with
    | mk res s1 =>
      rw [hr] at hread
      cases res with
      | error e =>
        rw [readLoop_succ_error m s s1 e hr]
        exact hread
      | ok r =>
        rw [readLoop_succ_ok m s s1 r hr]
        have hloop := ih s1
        cases hl : readLoop m s1 with
        | mk res2 s2 =>
          rw [hl] at hloop
          cases res2 with
          | error e => exact ⟨hloop.1.trans hread.1, hloop.2.trans hread.2⟩
          | ok rs => exact ⟨hloop.1.trans hread.1, hloop.2.trans hread.2⟩

end LTC681X

example : LTC681X.PEC15.calc [0x00, 0x04] = [0x07, 0xC2] := by decide

example : LTC681X.PEC15.calc [] = [0x00, 0x20] := by decide

example : LTC681X.frameOf 0x0004 = [0x00, 0x04, 0x07, 0xC2] := by decide

example : LTC681X.pecValid [1, 2, 3, 4, 5, 6, 0x22, 0xEE] := by decide

example :
    LTC681X.decodeTriple [1, 2, 3, 4, 5, 6, 0x22, 0xEE] = (0x0201, 0x0403, 0x0605) := by
  decide

namespace LTC681X

theorem takePin_csHigh (s : St) : ((takePin s).2).csHigh = s.csHigh := by
  cases s with
  | mk cs pin bus sent => cases pin with
    | nil => rfl
    | cons r rest => rfl

theorem setCs_ok_of_takePin (level : Bool) (s : St) (h : (takePin s).1 = Except.ok ()) :
    setCs level s = (Except.ok (), { (takePin s).2 with csHigh := level }) := by
  unfold setCs
  cases htp : takePin s with
  | mk r s1 =>
    rw [htp] at h
    cases r with
    | error e => simp at h
    | ok u => cases u; rfl

theorem setCs_ok_csHigh (level : Bool) (s s1 : St) (u : Unit)
    (h : setCs level s = (Except.ok u, s1)) : s1.csHigh = level := by
  unfold setCs at h
  cases htp : takePin s with
  | mk r s0 =>
    rw [htp] at h
    cases r with
    | error e => simp at h
    | ok v =>
      cases v
      simp at h
      rw [← h]

theorem setCs_error_csHigh (level : Bool) (s s1 : St) (e : Unit)
    (h : setCs level s = (Except.error e, s1)) : s1.csHigh = s.csHigh := by
  unfold setCs at h
  cases htp : takePin s with
  | mk r s0 =>
    rw [htp] at h
    cases r with
    | ok v => cases v; simp at h
    | error e2 =>
      simp at h
      rw [← h]
      have := takePin_csHigh s
      rw [htp] at this
      exact this

/-! Stage-unfolding lemmas for `read_cell_voltages`. -/

theorem rcv_cs_fail (L : Nat) (reg : CellVoltageRegister) (s s1 : St) (e : Unit)
    (h : setCs false s = (Except.error e, s1)) :
    read_cell_voltages L reg s = (Except.error (Error.CSPinError e), s1) := by
  simp [read_cell_voltages, h]

theorem rcv_cmd_fail (L : Nat) (reg : CellVoltageRegister) (s s1 s2 : St) (e : Unit)
    (h1 : setCs false s = (Except.ok (), s1))
    (h2 : send_command reg.code s1 = (Except.error e, s2)) :
    read_cell_voltages L reg s = (Except.error (Error.TransferError e), s2) := by
  simp [read_cell_voltages, h1, h2]

theorem rcv_loop_fail (L : Nat) (reg : CellVoltageRegister) (s s1 s2 s3 : St) (e : Error)
    (h1 : setCs false s = (Except.ok (), s1))
    (h2 : send_command reg.code s1 = (Except.ok (), s2))
    (h3 : readLoop L s2 = (Except.error e, s3)) :
    read_cell_voltages L reg s = (Except.error e, s3) := by
  simp [read_cell_voltages, h1, h2, h3]

theorem rcv_release_fail (L : Nat) (reg : CellVoltageRegister) (s s1 s2 s3 s4 : St)
    (result : List (Nat × Nat × Nat)) (e : Unit)
    (h1 : setCs false s = (Except.ok (), s1))
    (h2 : send_command reg.code s1 = (Except.ok (), s2))
    (h3 : readLoop L s2 = (Except.ok result, s3))
    (h4 : setCs true s3 = (Except.error e, s4)) :
    read_cell_voltages L reg s = (Except.error (Error.CSPinError e), s4) := by
  simp [read_cell_voltages, h1, h2, h3, h4]

theorem rcv_ok (L : Nat) (reg : CellVoltageRegister) (s s1 s2 s3 s4 : St)
    (result : List (Nat × Nat × Nat))
    (h1 : setCs false s = (Except.ok (), s1))
    (h2 : send_command reg.code s1 = (Except.ok (), s2))
    (h3 : readLoop L s2 = (Except.ok result, s3))
    (h4 : setCs true s3 = (Except.ok (), s4)) :
    read_cell_voltages L reg s = (Except.ok result, s4) := by
  simp [read_cell_voltages, h1, h2, h3, h4]

end LTC681X

namespace LTC681X

/-- C3: for every 16-bit opcode, the 4-byte frame `send_command` transmits
is the opcode in big-endian byte order followed by the 2-byte PEC15 of the
two opcode bytes, in every environment. -/
theorem send_command_frame (c : Nat) (s : St) (hc : c < 65536) :
    ((send_command c s).2).sent
      = s.sent ++ [[c / 256, c % 256,
          (PEC15.calc [c / 256, c % 256]).getD 0 0,
          (PEC15.calc [c / 256, c % 256]).getD 1 0]] := by
  have hb0 : (c >>> 8) &&& 0xFF = c / 256 := by
    rw [Nat.shiftRight_eq_div_pow]
    have hlt : c / 2 ^ 8 < 2 ^ 8 := by omega
    have hmask := Nat.and_pow_two_sub_one_eq_mod (c / 2 ^ 8) 8
    norm_num at hmask hlt ⊢
    rw [hmask]
    exact Nat.mod_eq_of_lt hlt
  have hb1 : c &&& 0xFF = c % 256 := by
    have hmask := Nat.and_pow_two_sub_one_eq_mod c 8
    norm_num at hmask ⊢
    exact hmask
  cases s with
  | mk cs pin bus sent =>
    cases bus with
    | nil => simp [send_command, busTransfer, hb0, hb1]
    | cons r rest =>
      cases r with
      | ok v => simp [send_command, busTransfer, hb0, hb1]
      | error e => simp [send_command, busTransfer, hb0, hb1]

/-- Witness for C3: the frame for opcode 0x0004 in a fresh environment. -/
theorem send_command_frame_witness :
    ((send_command 0x0004 (St.mk true [] [] [])).2).sent
      = [] ++ [[0x0004 / 256, 0x0004 % 256,
          (PEC15.calc [0x0004 / 256, 0x0004 % 256]).getD 0 0,
          (PEC15.calc [0x0004 / 256, 0x0004 % 256]).getD 1 0]] :=
  send_command_frame 0x0004 (St.mk true [] [] []) (by decide)

/-- C4: every precomputed command constant of `src/commands.rs` equals the
frame the framer computes for the opcode stored in its leading two bytes,
and in particular the frame for opcode 0x0004 is [0x00, 0x04, 0x07, 0xC2]. -/
theorem commands_match_framer :
    frameOf (cmdOpcode CMD_R_CELL_V_REG_A) = CMD_R_CELL_V_REG_A ∧
    frameOf (cmdOpcode CMD_R_CELL_V_REG_B) = CMD_R_CELL_V_REG_B ∧
    frameOf (cmdOpcode CMD_R_CELL_V_REG_C) = CMD_R_CELL_V_REG_C ∧
    frameOf (cmdOpcode CMD_R_CELL_V_REG_D) = CMD_R_CELL_V_REG_D ∧
    frameOf (cmdOpcode CMD_R_CELL_V_REG_E) = CMD_R_CELL_V_REG_E ∧
    frameOf (cmdOpcode CMD_R_CELL_V_REG_F) = CMD_R_CELL_V_REG_F ∧
    frameOf (cmdOpcode CMD_R_AUX_V_REG_A) = CMD_R_AUX_V_REG_A ∧
    frameOf (cmdOpcode CMD_R_AUX_V_REG_B) = CMD_R_AUX_V_REG_B ∧
    frameOf (cmdOpcode CMD_R_AUX_V_REG_C) = CMD_R_AUX_V_REG_C ∧
    frameOf (cmdOpcode CMD_R_AUX_V_REG_D) = CMD_R_AUX_V_REG_D ∧
    frameOf (cmdOpcode CMD_R_STATUS_A) = CMD_R_STATUS_A ∧
    frameOf (cmdOpcode CMD_R_STATUS_B) = CMD_R_STATUS_B ∧
    frameOf (cmdOpcode CMD_R_CONF_A) = CMD_R_CONF_A ∧
    frameOf (cmdOpcode CMD_R_CONF_B) = CMD_R_CONF_B ∧
    frameOf (cmdOpcode CMD_W_CONF_A) = CMD_W_CONF_A ∧
    frameOf (cmdOpcode CMD_W_CONF_B) = CMD_W_CONF_B ∧
    frameOf (cmdOpcode CMD_W_PWM) = CMD_W_PWM ∧
    frameOf (cmdOpcode CMD_R_PWM) = CMD_R_PWM ∧
    frameOf 0x0004 = [0x00, 0x04, 0x07, 0xC2] := by
  decide

/-- C6: `adc_ready` transmits a single all-ones byte; on an all-ones answer
it deasserts chip-select and returns `true`; on any other answer it returns
`false` and leaves chip-select asserted. -/
theorem adc_ready_poll (b : Nat) (sent : List (List Nat)) :
    ((adc_ready (St.mk false [] [Except.ok [b]] sent)).2).sent = sent ++ [[0xFF]] ∧
    (b = 0xFF →
      (adc_ready (St.mk false [] [Except.ok [b]] sent)).1 = Except.ok true ∧
      ((adc_ready (St.mk false [] [Except.ok [b]] sent)).2).csHigh = true) ∧
    (b ≠ 0xFF →
      (adc_ready (St.mk false [] [Except.ok [b]] sent)).1 = Except.ok false ∧
      ((adc_ready (St.mk false [] [Except.ok [b]] sent)).2).csHigh = false) := by
  by_cases hb : b = 0xFF
  · subst hb
    exact ⟨rfl, fun _ => ⟨rfl, rfl⟩, fun hne => absurd rfl hne⟩
  · refine ⟨?_, fun h => absurd h hb, fun _ => ⟨?_, ?_⟩⟩
    all_goals simp [adc_ready, busTransfer, setCs, takePin, hb]

/-- Witness for C6: a busy answer (0x00) reports `false` with chip-select
still asserted. -/
theorem adc_ready_poll_witness :
    (adc_ready (St.mk false [] [Except.ok [0x00]] [])).1 = Except.ok false ∧
    ((adc_ready (St.mk false [] [Except.ok [0x00]] [])).2).csHigh = false :=
  (adc_ready_poll 0x00 []).2.2 (by decide)

/-- C7: after a successful `start_conv_cells`, chip-select ends deasserted
under `NoPolling` and stays asserted under `SDOLinePolling`. -/
theorem start_conv_cells_cs (mode : ADCMode) (cells : CellSelection) (dcp : Bool)
    (cs0 : Bool) (sent : List (List Nat)) :
    (start_conv_cells PollMethod.NoPolling mode cells dcp (St.mk cs0 [] [] sent)).1
      = Except.ok () ∧
    ((start_conv_cells PollMethod.NoPolling mode cells dcp (St.mk cs0 [] [] sent)).2).csHigh
      = true ∧
    (start_conv_cells PollMethod.SDOLinePolling mode cells dcp (St.mk cs0 [] [] sent)).1
      = Except.ok () ∧
    ((start_conv_cells PollMethod.SDOLinePolling mode cells dcp (St.mk cs0 [] [] sent)).2).csHigh
      = false :=
  ⟨rfl, rfl, rfl, rfl⟩

/-- C8: `start_conv_cells` transmits the frame of the command word obtained
by OR-ing the base opcode with the mode bits shifted left by 7, the
cell-selection bits, and bit 4 for the discharge permit; the OR-ed
contributions occupy pairwise disjoint bit ranges. -/
theorem start_conv_cells_word (p : PollMethod) (mode : ADCMode) (cells : CellSelection)
    (dcp : Bool) (cs0 : Bool) (sent : List (List Nat)) :
    (((start_conv_cells p mode cells dcp (St.mk cs0 [] [] sent)).2).sent
      = sent ++ [[(conversionCommand mode cells dcp >>> 8) &&& 0xFF,
                  conversionCommand mode cells dcp &&& 0xFF,
                  (PEC15.calc [(conversionCommand mode cells dcp >>> 8) &&& 0xFF,
                               conversionCommand mode cells dcp &&& 0xFF]).getD 0 0,
                  (PEC15.calc [(conversionCommand mode cells dcp >>> 8) &&& 0xFF,
                               conversionCommand mode cells dcp &&& 0xFF]).getD 1 0]]) ∧
    conversionCommand mode cells dcp
      = 0b0000001001100000 ||| (mode.code <<< 7) ||| cells.code |||
          (if dcp then 0b00010000 else 0) ∧
    (conversionCommand mode cells dcp).testBit 4 = dcp ∧
    0b0000001001100000 &&& (mode.code <<< 7) = 0 ∧
    0b0000001001100000 &&& cells.code = 0 ∧
    (0b0000001001100000 : Nat) &&& 0b00010000 = 0 ∧
    (mode.code <<< 7) &&& cells.code = 0 ∧
    (mode.code <<< 7) &&& 0b00010000 = 0 ∧
    cells.code &&& 0b00010000 = 0 := by
  cases p <;> cases mode <;> cases cells <;> cases dcp <;> exact ⟨rfl, by decide⟩

end LTC681X

namespace LTC681X

/-- C1 counterexample: the initial chip-select assertion succeeds, the
command transfer fails, and `read_cell_voltages` returns a failure with
chip-select still asserted (low) — refuting the claim that chip-select ends
deasserted on every failure path. -/
theorem read_cell_voltages_cs_counterexample :
    (read_cell_voltages 1 CellVoltageRegister.RegisterA
        (St.mk true [] [Except.error ()] [])).1
      = Except.error (Error.TransferError ()) ∧
    ((read_cell_voltages 1 CellVoltageRegister.RegisterA
        (St.mk true [] [Except.error ()] [])).2).csHigh = false := by
  decide

/-- C1 (amended): when the initial chip-select assertion succeeds,
`read_cell_voltages` returns `Ok` exactly when chip-select ends deasserted:
the success path releases the line, while every failure outcome after the
assertion (bus transfer failure, checksum mismatch, or a failing final
release) returns with chip-select still asserted. -/
theorem read_cell_voltages_cs_release (L : Nat) (reg : CellVoltageRegister) (s : St)
    (h : (takePin s).1 = Except.ok ()) :
    ((read_cell_voltages L reg s).1).isOk = true ↔
      ((read_cell_voltages L reg s).2).csHigh = true := by
  have h1 := setCs_ok_of_takePin false s h
  set sA : St := { (takePin s).2 with csHigh := false } with hsA
  have hA : sA.csHigh = false := rfl
  cases h2 : send_command reg.code sA with
  | mk r2 sB =>
    have hBcs : sB.csHigh = sA.csHigh := by
      have hh := send_command_csHigh reg.code sA
      rw [h2] at hh
      exact hh
    cases r2 with
    | error e =>
      rw [rcv_cmd_fail L reg s sA sB e h1 h2]
      simp [Except.isOk, Except.toBool, hBcs, hA]
    | ok u =>
      cases u
      cases h3 : readLoop L sB with
      | mk r3 sC =>
        have hCcs : sC.csHigh = sB.csHigh := by
          have hh := (readLoop_pres L sB).1
          rw [h3] at hh
          exact hh
        cases r3 with
        | error e =>
          rw [rcv_loop_fail L reg s sA sB sC e h1 h2 h3]
          simp [Except.isOk, Except.toBool, hCcs, hBcs, hA]
        | ok result =>
          cases h4 : setCs true sC with
          | mk r4 sD =>
            cases r4 with
            | error e =>
              have hDcs : sD.csHigh = sC.csHigh := setCs_error_csHigh true sC sD e h4
              rw [rcv_release_fail L reg s sA sB sC sD result e h1 h2 h3 h4]
              simp [Except.isOk, Except.toBool, hDcs, hCcs, hBcs, hA]
            | ok u2 =>
              cases u2
              have hDcs : sD.csHigh = true := setCs_ok_csHigh true sC sD () h4
              rw [rcv_ok L reg s sA sB sC sD result h1 h2 h3 h4]
              simp [Except.isOk, Except.toBool, hDcs]

/-- Witness for the amended C1: a successful single-device read ends with
chip-select deasserted, matching the returned `Ok`. -/
theorem read_cell_voltages_cs_release_witness :
    ((read_cell_voltages 1 CellVoltageRegister.RegisterA
        (St.mk true [] [Except.ok [0, 4, 7, 0xC2],
          Except.ok [1, 2, 3, 4, 5, 6, 0x22, 0xEE]] [])).1).isOk = true ↔
      ((read_cell_voltages 1 CellVoltageRegister.RegisterA
        (St.mk true [] [Except.ok [0, 4, 7, 0xC2],
          Except.ok [1, 2, 3, 4, 5, 6, 0x22, 0xEE]] [])).2).csHigh = true :=
  read_cell_voltages_cs_release 1 CellVoltageRegister.RegisterA
    (St.mk true [] [Except.ok [0, 4, 7, 0xC2],
      Except.ok [1, 2, 3, 4, 5, 6, 0x22, 0xEE]] []) (by decide)

end LTC681X

namespace LTC681X

theorem read_step_ok (cs : Bool) (pin : List (Except Unit Unit)) (r : List Nat)
    (rest : List (Except Unit (List Nat))) (sent : List (List Nat)) (hv : pecValid r) :
    read (St.mk cs pin (Except.ok r :: rest) sent)
      = (Except.ok (decodeTriple r),
         St.mk cs pin rest (sent ++ [List.replicate 8 0xFF])) := by
  have hcond : ¬(((PEC15.calc (r.take 6)).getD 0 0 ≠ r.getD 6 0) ∨
      ((PEC15.calc (r.take 6)).getD 1 0 ≠ r.getD 7 0)) := by
    push_neg
    exact ⟨hv.1, hv.2⟩
  simp only [read, busTransfer]
  rw [if_neg hcond]
  rfl

theorem read_step_bad (cs : Bool) (pin : List (Except Unit Unit)) (r : List Nat)
    (rest : List (Except Unit (List Nat))) (sent : List (List Nat)) (hv : ¬ pecValid r) :
    read (St.mk cs pin (Except.ok r :: rest) sent)
      = (Except.error Error.ChecksumMismatch,
         St.mk cs pin rest (sent ++ [List.replicate 8 0xFF])) := by
  have hcond : ((PEC15.calc (r.take 6)).getD 0 0 ≠ r.getD 6 0) ∨
      ((PEC15.calc (r.take 6)).getD 1 0 ≠ r.getD 7 0) := by
    by_contra hc
    push_neg at hc
    exact hv ⟨hc.1, hc.2⟩
  simp only [read, busTransfer]
  rw [if_pos hcond]

theorem send_command_step (c : Nat) (cs : Bool) (pin : List (Except Unit Unit))
    (v : List Nat) (rest : List (Except Unit (List Nat))) (sent : List (List Nat)) :
    send_command c (St.mk cs pin (Except.ok v :: rest) sent)
      = (Except.ok (),
         St.mk cs pin rest
           (sent ++ [[(c >>> 8) &&& 0xFF, c &&& 0xFF,
             (PEC15.calc [(c >>> 8) &&& 0xFF, c &&& 0xFF]).getD 0 0,
             (PEC15.calc [(c >>> 8) &&& 0xFF, c &&& 0xFF]).getD 1 0]])) := by
  simp [send_command, busTransfer]

theorem readLoop_abort (i : Nat) :
    ∀ (n : Nat) (cs : Bool) (pin : List (Except Unit Unit))
      (resps : List (List Nat)) (rest : List (Except Unit (List Nat)))
      (sent : List (List Nat)),
      i < n → n ≤ resps.length →
      (∀ j, j < i → pecValid (resps.getD j [])) →
      ¬ pecValid (resps.getD i []) →
      (readLoop n (St.mk cs pin (resps.map Except.ok ++ rest) sent)).1
          = Except.error Error.ChecksumMismatch ∧
      ((readLoop n (St.mk cs pin (resps.map Except.ok ++ rest) sent)).2).sent.length
          = sent.length + (i + 1) := by
  induction i with
  | zero =>
    intro n cs pin resps rest sent hin hn hval hbad
    cases n with
    | zero => omega
    | succ m =>
      cases resps with
      | nil => simp at hn
      | cons r rs =>
        have hb : ¬ pecValid r := by simpa using hbad
        simp only [List.map_cons, List.cons_append]
        rw [readLoop_succ_error m _ _ _
          (read_step_bad cs pin r (rs.map Except.ok ++ rest) sent hb)]
        simp
  | succ i ih =>
    intro n cs pin resps rest sent hin hn hval hbad
    cases n with
    | zero => omega
    | succ m =>
      cases resps with
      | nil => simp at hn
      | cons r rs =>
        have hv : pecValid r := by
          have hh := hval 0 (Nat.succ_pos i)
          simpa using hh
        simp only [List.map_cons, List.cons_append]
        rw [readLoop_succ_ok m _ _ _
          (read_step_ok cs pin r (rs.map Except.ok ++ rest) sent hv)]
        have ihm := ih m cs pin rs rest (sent ++ [List.replicate 8 0xFF])
          (by omega) (by simp at hn; omega)
          (fun j hj => by
            have hh := hval (j + 1) (by omega)
            simpa using hh)
          (by simpa using hbad)
        cases hl : readLoop m
            (St.mk cs pin (rs.map Except.ok ++ rest) (sent ++ [List.replicate 8 0xFF])) with
        | mk res2 s2 =>
          rw [hl] at ihm
          cases res2 with
          | error e =>
            refine ⟨ihm.1, ?_⟩
            have hh := ihm.2
            simp at hh ⊢
            omega
          | ok rs2 => exact absurd ihm.1 (by simp)

end LTC681X

namespace LTC681X

/-- C2: if the `i`-th device's response is the first whose trailing 2 bytes
differ from the PEC15 of its leading 6 bytes, `read_cell_voltages` aborts
with `ChecksumMismatch` (so no partial data is returned), and only `i + 2`
bus transfers have occurred (the command frame plus devices `0..i`), so no
response after the `i`-th is read or decoded. -/
theorem read_cell_voltages_checksum_abort (L i : Nat) (reg : CellVoltageRegister)
    (cs0 : Bool) (sent : List (List Nat)) (echo : List Nat)
    (resps : List (List Nat)) (rest : List (Except Unit (List Nat)))
    (hlen : resps.length = L) (hi : i < L)
    (hval : ∀ j, j < i → pecValid (resps.getD j []))
    (hbad : ¬ pecValid (resps.getD i [])) :
    (read_cell_voltages L reg
        (St.mk cs0 [] (Except.ok echo :: (resps.map Except.ok ++ rest)) sent)).1
      = Except.error Error.ChecksumMismatch ∧
    ((read_cell_voltages L reg
        (St.mk cs0 [] (Except.ok echo :: (resps.map Except.ok ++ rest)) sent)).2).sent.length
      = sent.length + (i + 2) := by
  have h1 := setCs_ok_of_takePin false
    (St.mk cs0 [] (Except.ok echo :: (resps.map Except.ok ++ rest)) sent) rfl
  have h2 := send_command_step reg.code false []
    echo (resps.map Except.ok ++ rest)
    sent
  obtain ⟨habort1, habort2⟩ := readLoop_abort i L false [] resps rest
    (sent ++ [[(reg.code >>> 8) &&& 0xFF, reg.code &&& 0xFF,
      (PEC15.calc [(reg.code >>> 8) &&& 0xFF, reg.code &&& 0xFF]).getD 0 0,
      (PEC15.calc [(reg.code >>> 8) &&& 0xFF, reg.code &&& 0xFF]).getD 1 0]])
    hi (le_of_eq hlen.symm) hval hbad
  cases hl : readLoop L
      (St.mk false [] (resps.map Except.ok ++ rest)
        (sent ++ [[(reg.code >>> 8) &&& 0xFF, reg.code &&& 0xFF,
          (PEC15.calc [(reg.code >>> 8) &&& 0xFF, reg.code &&& 0xFF]).getD 0 0,
          (PEC15.calc [(reg.code >>> 8) &&& 0xFF, reg.code &&& 0xFF]).getD 1 0]])) with
  | mk res3 s3 =>
    rw [hl] at habort1 habort2
    have h3 : readLoop L
        (St.mk false [] (resps.map Except.ok ++ rest)
          (sent ++ [[(reg.code >>> 8) &&& 0xFF, reg.code &&& 0xFF,
            (PEC15.calc [(reg.code >>> 8) &&& 0xFF, reg.code &&& 0xFF]).getD 0 0,
            (PEC15.calc [(reg.code >>> 8) &&& 0xFF, reg.code &&& 0xFF]).getD 1 0]]))
        = (Except.error Error.ChecksumMismatch, s3) := by
      rw [hl]
      rw [show res3 = Except.error Error.ChecksumMismatch from habort1]
    rw [rcv_loop_fail L reg _ _ _ _ _ h1 h2 h3]
    refine ⟨rfl, ?_⟩
    have hh := habort2
    simp at hh ⊢
    omega

/-- Witness for C2: a two-device chain whose first response is valid and
whose second response fails the checksum aborts with `ChecksumMismatch`
after exactly three transfers. -/
theorem read_cell_voltages_checksum_abort_witness :
    (read_cell_voltages 2 CellVoltageRegister.RegisterA
        (St.mk true []
          (Except.ok [0, 4, 7, 0xC2] ::
            ([[1, 2, 3, 4, 5, 6, 0x22, 0xEE], [0, 0, 0, 0, 0, 0, 0, 0]].map Except.ok ++ []))
          [])).1
      = Except.error Error.ChecksumMismatch ∧
    ((read_cell_voltages 2 CellVoltageRegister.RegisterA
        (St.mk true []
          (Except.ok [0, 4, 7, 0xC2] ::
            ([[1, 2, 3, 4, 5, 6, 0x22, 0xEE], [0, 0, 0, 0, 0, 0, 0, 0]].map Except.ok ++ []))
          [])).2).sent.length
      = ([] : List (List Nat)).length + (1 + 2) :=
  read_cell_voltages_checksum_abort 2 1 CellVoltageRegister.RegisterA true []
    [0, 4, 7, 0xC2] [[1, 2, 3, 4, 5, 6, 0x22, 0xEE], [0, 0, 0, 0, 0, 0, 0, 0]] []
    (by decide) (by decide)
    (by
      intro j hj
      interval_cases j
      decide)
    (by decide)

theorem readLoop_ok_all (resps : List (List Nat)) :
    ∀ (cs : Bool) (pin : List (Except Unit Unit))
      (rest : List (Except Unit (List Nat))) (sent : List (List Nat)),
      (∀ r, r ∈ resps → pecValid r) →
      readLoop resps.length (St.mk cs pin (resps.map Except.ok ++ rest) sent)
        = (Except.ok (resps.map decodeTriple),
           St.mk cs pin rest
             (sent ++ List.replicate resps.length (List.replicate 8 0xFF))) := by
  induction resps with
  | nil =>
    intro cs pin rest sent h
    simp [readLoop]
  | cons r rs ih =>
    intro cs pin rest sent h
    have hv : pecValid r := h r (List.mem_cons_self r rs)
    simp only [List.map_cons, List.cons_append, List.length_cons]
    rw [readLoop_succ_ok _ _ _ _
      (read_step_ok cs pin r (rs.map Except.ok ++ rest) sent hv)]
    rw [ih cs pin rest (sent ++ [List.replicate 8 0xFF])
      (fun x hx => h x (List.mem_cons_of_mem r hx))]
    simp [List.replicate_succ, List.append_assoc]

/-- C5: with all `L` per-device responses checksum-valid, the call returns
`Ok` with exactly `L` decoded triples in chain order, the `i`-th being the
three little-endian 16-bit values of the `i`-th device's payload bytes. -/
theorem read_cell_voltages_success (L : Nat) (reg : CellVoltageRegister) (cs0 : Bool)
    (sent : List (List Nat)) (echo : List Nat) (resps : List (List Nat))
    (hL : 0 < L) (hlen : resps.length = L)
    (hvalid : ∀ r, r ∈ resps → pecValid r) :
    (read_cell_voltages L reg
        (St.mk cs0 [] (Except.ok echo :: resps.map Except.ok) sent)).1
      = Except.ok (resps.map decodeTriple) ∧
    (resps.map decodeTriple).length = L := by
  have h1 := setCs_ok_of_takePin false
    (St.mk cs0 [] (Except.ok echo :: resps.map Except.ok) sent) rfl
  have h2 := send_command_step reg.code false [] echo (resps.map Except.ok) sent
  have h3 := readLoop_ok_all resps false [] []
    (sent ++ [[(reg.code >>> 8) &&& 0xFF, reg.code &&& 0xFF,
      (PEC15.calc [(reg.code >>> 8) &&& 0xFF, reg.code &&& 0xFF]).getD 0 0,
      (PEC15.calc [(reg.code >>> 8) &&& 0xFF, reg.code &&& 0xFF]).getD 1 0]]) hvalid
  rw [hlen, List.append_nil] at h3
  have h4 := setCs_ok_of_takePin true
    (St.mk false [] []
      (sent ++ [[(reg.code >>> 8) &&& 0xFF, reg.code &&& 0xFF,
        (PEC15.calc [(reg.code >>> 8) &&& 0xFF, reg.code &&& 0xFF]).getD 0 0,
        (PEC15.calc [(reg.code >>> 8) &&& 0xFF, reg.code &&& 0xFF]).getD 1 0]]
        ++ List.replicate L (List.replicate 8 0xFF))) rfl
  rw [rcv_ok L reg _ _ _ _ _ _ h1 h2 h3 h4]
  refine ⟨rfl, ?_⟩
  simp [hlen]

/-- Witness for C5: a two-device chain with valid responses returns the two
decoded triples in chain order. -/
theorem read_cell_voltages_success_witness :
    (read_cell_voltages 2 CellVoltageRegister.RegisterA
        (St.mk true []
          (Except.ok [0, 4, 7, 0xC2] ::
            [[1, 2, 3, 4, 5, 6, 0x22, 0xEE],
             [0x10, 0x27, 0x20, 0x4E, 0x30, 0x75, 0xC9, 0x1E]].map Except.ok)
          [])).1
      = Except.ok ([[1, 2, 3, 4, 5, 6, 0x22, 0xEE],
          [0x10, 0x27, 0x20, 0x4E, 0x30, 0x75, 0xC9, 0x1E]].map decodeTriple) ∧
    ([[1, 2, 3, 4, 5, 6, 0x22, 0xEE],
      [0x10, 0x27, 0x20, 0x4E, 0x30, 0x75, 0xC9, 0x1E]].map decodeTriple).length = 2 :=
  read_cell_voltages_success 2 CellVoltageRegister.RegisterA true []
    [0, 4, 7, 0xC2]
    [[1, 2, 3, 4, 5, 6, 0x22, 0xEE], [0x10, 0x27, 0x20, 0x4E, 0x30, 0x75, 0xC9, 0x1E]]
    (by decide) (by decide)
    (by
      intro r hr
      simp at hr
      rcases hr with h | h <;> rw [h] <;> decide)

end LTC681X

namespace LTC681X

/-- C9: for every GPIO selector other than GPIO1–GPIO3, both pull-down
encoders take the unconditional fault branch (`unimplemented!`, modelled as
`none`), and for every cell selector other than Cell1–Cell6 so does
`discharge_cell`; the fault branches are reachable for such inputs. -/
theorem unsupported_selector_fault :
    (∀ (c : Configuration) (pin : GPIO),
        pin ≠ GPIO.GPIO1 → pin ≠ GPIO.GPIO2 → pin ≠ GPIO.GPIO3 →
        enable_gpio_pull_down c pin = none ∧ disable_gpio_pull_down c pin = none) ∧
    (∀ (c : Configuration) (cell : Cell),
        cell ≠ Cell.Cell1 → cell ≠ Cell.Cell2 → cell ≠ Cell.Cell3 →
        cell ≠ Cell.Cell4 → cell ≠ Cell.Cell5 → cell ≠ Cell.Cell6 →
        discharge_cell c cell = none) := by
  constructor
  · intro c pin h1 h2 h3
    cases pin <;>
      first
        | exact absurd rfl h1
        | exact absurd rfl h2
        | exact absurd rfl h3
        | exact ⟨rfl, rfl⟩
  · intro c cell h1 h2 h3 h4 h5 h6
    cases cell <;>
      first
        | exact absurd rfl h1
        | exact absurd rfl h2
        | exact absurd rfl h3
        | exact absurd rfl h4
        | exact absurd rfl h5
        | exact absurd rfl h6
        | rfl

/-- Witness for C9: GPIO4 and Cell7 reach the fault branches on the default
configuration. -/
theorem unsupported_selector_fault_witness :
    enable_gpio_pull_down Configuration.default GPIO.GPIO4 = none ∧
    disable_gpio_pull_down Configuration.default GPIO.GPIO4 = none ∧
    discharge_cell Configuration.default Cell.Cell7 = none :=
  ⟨(unsupported_selector_fault.1 Configuration.default GPIO.GPIO4
      (by decide) (by decide) (by decide)).1,
   (unsupported_selector_fault.1 Configuration.default GPIO.GPIO4
      (by decide) (by decide) (by decide)).2,
   unsupported_selector_fault.2 Configuration.default Cell.Cell7
      (by decide) (by decide) (by decide) (by decide) (by decide) (by decide)⟩

/-- C10: `set_uv_comp_voltage` errors exactly for nonzero arguments outside
3200..=6553600 and `set_ov_comp_voltage` exactly for nonzero arguments
outside 1600..=6552000; every error leaves the register bytes unchanged;
an argument of 0 succeeds and writes the all-zero disabled sentinel into
the corresponding field. -/
theorem comp_voltage_spec (a0 a1 a2 a3 a4 a5 v : Nat) :
    ((set_uv_comp_voltage (Configuration.mk [a0, a1, a2, a3, a4, a5]) v).1
        = Except.error {} ↔ v ≠ 0 ∧ ¬(3200 ≤ v ∧ v ≤ 6553600)) ∧
    ((set_uv_comp_voltage (Configuration.mk [a0, a1, a2, a3, a4, a5]) v).1
        = Except.error {} →
      (set_uv_comp_voltage (Configuration.mk [a0, a1, a2, a3, a4, a5]) v).2
        = Configuration.mk [a0, a1, a2, a3, a4, a5]) ∧
    (v = 0 →
      (set_uv_comp_voltage (Configuration.mk [a0, a1, a2, a3, a4, a5]) v).1
          = Except.ok () ∧
      ((set_uv_comp_voltage (Configuration.mk [a0, a1, a2, a3, a4, a5]) v).2).register_a
          = [a0, 0, a2 &&& 0b11110000, a3, a4, a5]) ∧
    ((set_ov_comp_voltage (Configuration.mk [a0, a1, a2, a3, a4, a5]) v).1
        = Except.error {} ↔ v ≠ 0 ∧ ¬(1600 ≤ v ∧ v ≤ 6552000)) ∧
    ((set_ov_comp_voltage (Configuration.mk [a0, a1, a2, a3, a4, a5]) v).1
        = Except.error {} →
      (set_ov_comp_voltage (Configuration.mk [a0, a1, a2, a3, a4, a5]) v).2
        = Configuration.mk [a0, a1, a2, a3, a4, a5]) ∧
    (v = 0 →
      (set_ov_comp_voltage (Configuration.mk [a0, a1, a2, a3, a4, a5]) v).1
          = Except.ok () ∧
      ((set_ov_comp_voltage (Configuration.mk [a0, a1, a2, a3, a4, a5]) v).2).register_a
          = [a0, a1, a2 &&& 0b00001111, 0, a4, a5]) := by
  refine ⟨?_, ?_, ?_, ?_, ?_, ?_⟩
  · rw [set_uv_comp_voltage]
    split_ifs with hz hr <;> simp_all
  · rw [set_uv_comp_voltage]
    split_ifs with hz hr <;> simp_all
  · intro hz
    subst hz
    rw [set_uv_comp_voltage]
    simp [List.set]
  · rw [set_ov_comp_voltage]
    split_ifs with hz hr <;> simp_all
  · rw [set_ov_comp_voltage]
    split_ifs with hz hr <;> simp_all
  · intro hz
    subst hz
    rw [set_ov_comp_voltage]
    simp [List.set]

/-- Witness for C10: at 100 µV (nonzero, below both ranges) both setters
error and the register bytes of the default configuration are unchanged. -/
theorem comp_voltage_spec_witness :
    (set_uv_comp_voltage (Configuration.mk [0xF8, 0, 0, 0, 0, 0]) 100).2
        = Configuration.mk [0xF8, 0, 0, 0, 0, 0] ∧
    (set_ov_comp_voltage (Configuration.mk [0xF8, 0, 0, 0, 0, 0]) 100).2
        = Configuration.mk [0xF8, 0, 0, 0, 0, 0] :=
  ⟨(comp_voltage_spec 0xF8 0 0 0 0 0 100).2.1 (by decide),
   (comp_voltage_spec 0xF8 0 0 0 0 0 100).2.2.2.2.1 (by decide)⟩

end LTC681X
